import Mathlib

/- Verification development for the biometric-auth service (src/app.py).

   Embedding conventions:
   - numpy float arrays (face encodings, voice embeddings) are modelled as
     lists of real numbers; float arithmetic is idealised as real arithmetic;
   - the Python dicts face_data / voice_data are modelled as association
     lists kept in dict iteration order;
   - the external collaborators (base64 decoding, face_recognition,
     resemblyzer, mediapipe frame processing) are out of scope: each handler
     takes the collaborator outputs as explicit inputs;
   - round(x, n) display rounding of reported scores is omitted (every
     threshold comparison in the code is on the unrounded value);
   - Python truthiness of the optional-string variable best_match is
     modelled explicitly (None and the empty string are falsy). -/

namespace BiometricAuth

/-- Feature vector: a numpy float array, modelled as a list of reals. -/
abbrev Vec := List ℝ

/-- Gallery: a Python dict mapping profile name to template vector, modelled
as an association list in dict iteration order. -/
abbrev Gallery := List (String × Vec)

/-- Membership-plus-indexing of a Python dict: models the idiom
`if profile in data: ... data[profile] ...` as a single lookup. -/
def galleryLookup : Gallery → String → Option Vec
  | [], _ => none
  | (n, v) :: rest, k => if n = k then some v else galleryLookup rest k

/-- Dot product of two vectors (np.dot on equal-length arrays). -/
noncomputable def dot (a b : Vec) : ℝ :=
  ((a.zip b).map fun p => p.1 * p.2).sum

/-- Euclidean norm of a vector (np.linalg.norm(a)). -/
noncomputable def norm2 (a : Vec) : ℝ :=
  Real.sqrt ((a.map fun x => x * x).sum)

/-- L2 distance np.linalg.norm(encoding - known_encoding). -/
noncomputable def l2dist (a b : Vec) : ℝ :=
  Real.sqrt (((a.zip b).map fun p => (p.1 - p.2) * (p.1 - p.2)).sum)

/-- Cosine similarity as computed in recognize_voice and in the voice branch
of combined_authentication: np.dot(a, b) / (norm(a) * norm(b)). -/
noncomputable def cosSim (a b : Vec) : ℝ :=
  dot a b / (norm2 a * norm2 b)

/-- Python truthiness of the best_match variable (an Optional[str]): None
and the empty string are falsy, every other string is truthy. -/
def pyTruthy : Option String → Bool
  | none => false
  | some s => s != ""

/- ------------------------------------------------------------------ -/
/- Face Matcher: match_face (src/app.py lines 125-137).                -/
/- ------------------------------------------------------------------ -/

/-- One iteration of the match_face loop. The accumulator is
(best_match, best_dist); none models the initial state
best_match = None, best_dist = inf, in which the first comparison
dist < inf always succeeds. The update is strict (dist < best_dist),
so the first-encountered entry wins ties. -/
noncomputable def matchFaceStep (enc : Vec) (acc : Option (String × ℝ)) (p : String × Vec) :
    Option (String × ℝ) :=
  match acc with
  | none => some (p.1, l2dist enc p.2)
  | some (bm, bd) => if l2dist enc p.2 < bd then some (p.1, l2dist enc p.2) else some (bm, bd)

/-- The full scan of the gallery performed by match_face. -/
noncomputable def matchFaceScan (enc : Vec) (g : Gallery) : Option (String × ℝ) :=
  g.foldl (matchFaceStep enc) none

/-- match_face(encoding, face_data, threshold): returns (best_match, similarity)
if best_dist < threshold else (None, similarity), where
similarity = max(0, 1 - best_dist) * 100. On an empty gallery best_dist
stays inf, so the similarity max(0, 1 - inf) * 100 is 0 and no match is
reported. The endpoint calls it with threshold = 0.6. -/
noncomputable def match_face (enc : Vec) (g : Gallery) (threshold : ℝ) :
    Option String × ℝ :=
  match matchFaceScan enc g with
  | none => (none, 0)
  | some (bm, bd) =>
      (if bd < threshold then some bm else none, max 0 (1 - bd) * 100)

/- ------------------------------------------------------------------ -/
/- Voice Matcher: recognize_voice (src/app.py lines 212-241).          -/
/- ------------------------------------------------------------------ -/

/-- One iteration of the recognize_voice comparison loop. The accumulator
is (best_match, highest_similarity), initially (None, -1); the update is
strict (similarity > highest_similarity). -/
noncomputable def voiceScanStep (emb : Vec) (acc : Option String × ℝ) (p : String × Vec) :
    Option String × ℝ :=
  if acc.2 < cosSim emb p.2 then (some p.1, cosSim emb p.2) else acc

/-- The full comparison loop of recognize_voice over the voice gallery. -/
noncomputable def voiceScan (emb : Vec) (g : Gallery) : Option String × ℝ :=
  g.foldl (voiceScanStep emb) (none, -1)

/-- One entry of the matches list in a recognition response. -/
structure VoiceMatchEntry where
  name : String
  similarity : ℝ
  confidence : String

/-- Response body of the voice-recognition endpoint (success path). -/
structure VoiceRecoResponse where
  success : Bool
  message : String
  «matches» : List VoiceMatchEntry
  best_similarity : ℝ

/-- Core of recognize_voice after the external steps (the embedding is the
output of voice_encoder.embed_utterance on a waveform of length at least
16000, checked upstream): scans voice_data tracking the best similarity,
then emits a match only if best_match is truthy and the similarity is at
least 0.60; best_similarity is the (unrounded) percentage if best_match is
truthy else 0. -/
noncomputable def recognize_voice_core (emb : Vec) (g : Gallery) : VoiceRecoResponse :=
  { success := true
    message := "Voice processed successfully"
    «matches» :=
      if pyTruthy (voiceScan emb g).1 ∧ 0.60 ≤ (voiceScan emb g).2 then
        [{ name := ((voiceScan emb g).1).getD ""
           similarity := max 0 ((voiceScan emb g).2 * 100)
           confidence := if 75 < max 0 ((voiceScan emb g).2 * 100) then "high" else "medium" }]
      else []
    best_similarity :=
      if pyTruthy (voiceScan emb g).1 then max 0 ((voiceScan emb g).2 * 100) else 0 }

/- ------------------------------------------------------------------ -/
/- Authentication Orchestrator: combined_authentication (252-376).     -/
/- ------------------------------------------------------------------ -/

/-- A face bounding box as returned by face_recognition.face_locations
(top, right, bottom, left). -/
abbrev FaceLocation := ℕ × ℕ × ℕ × ℕ

/-- The external face pipeline outputs for a supplied image: the detected
face locations and the encodings computed from them. -/
structure FaceInput where
  locations : List FaceLocation
  encodings : List Vec

/-- The external voice pipeline outputs for a supplied audio file: the
length of the preprocessed waveform and the utterance embedding. -/
structure VoiceInput where
  wavLen : ℕ
  emb : Vec

/-- The face_match / voice_match record in the authentication response. -/
structure MatchRecord where
  name : String
  similarity : ℝ
  confidence : String

/-- Response body of the combined authentication endpoint. -/
structure AuthResponse where
  success : Bool
  message : String
  face_match : Option MatchRecord
  voice_match : Option MatchRecord
  authentication_passed : Bool

/-- Face branch of combined_authentication (lines 274-308): guarded by
mode in ["face", "both"] and a supplied image (a None or empty-string
image_data skips the branch silently). Returns
(face_success, face_match record, diagnostic text appended to message).
The first encoding face_encodings[0] is the one compared. -/
noncomputable def faceAuth (mode profile : String) (gf : Gallery) (img : Option FaceInput) :
    Bool × Option MatchRecord × String :=
  if mode = "face" ∨ mode = "both" then
    match img with
    | none => (false, none, "")
    | some fi =>
        if fi.locations ≠ [] then
          if fi.encodings ≠ [] then
            match galleryLookup gf profile with
            | some known =>
                if l2dist fi.encodings.headI known < 0.6 then
                  (true,
                   some { name := profile
                          similarity := max 0 (1 - l2dist fi.encodings.headI known) * 100
                          confidence :=
                            if 70 < max 0 (1 - l2dist fi.encodings.headI known) * 100 then
                              "high" else "medium" },
                   "")
                else
                  (false,
                   some { name := "No match"
                          similarity := max 0 (1 - l2dist fi.encodings.headI known) * 100
                          confidence := "low" },
                   "")
            | none => (false, none, "Profile " ++ profile ++ " not found in face models. ")
          else (false, none, "")
        else (false, none, "No face detected in image. ")
  else (false, none, "")

/-- Voice branch of combined_authentication (lines 311-353): guarded by
mode in ["voice", "both"] and a supplied audio file. Returns
(voice_success, voice_match record, diagnostic text appended to message). -/
noncomputable def voiceAuth (mode profile : String) (gv : Gallery) (aud : Option VoiceInput) :
    Bool × Option MatchRecord × String :=
  if mode = "voice" ∨ mode = "both" then
    match aud with
    | none => (false, none, "")
    | some vi =>
        if 16000 ≤ vi.wavLen then
          match galleryLookup gv profile with
          | some stored =>
              if 0.60 ≤ cosSim vi.emb stored then
                (true,
                 some { name := profile
                        similarity := max 0 (cosSim vi.emb stored * 100)
                        confidence :=
                          if 75 < max 0 (cosSim vi.emb stored * 100) then "high" else "medium" },
                 "")
              else
                (false,
                 some { name := "No match"
                        similarity := max 0 (cosSim vi.emb stored * 100)
                        confidence := "low" },
                 "")
          | none => (false, none, "Profile " ++ profile ++ " not found in voice models. ")
        else (false, none, "Audio too short or unclear. ")
  else (false, none, "")

/-- combined_authentication (lines 252-376): runs the face branch then the
voice branch, accumulates their diagnostics in order, and fuses
per-mode: face -> face_success, voice -> voice_success,
both -> face_success and voice_success, any other mode -> false.
success and authentication_passed are assigned the same value. -/
noncomputable def combined_authentication (mode profile : String) (gf gv : Gallery)
    (img : Option FaceInput) (aud : Option VoiceInput) : AuthResponse :=
  { success :=
      if mode = "face" then (faceAuth mode profile gf img).1
      else if mode = "voice" then (voiceAuth mode profile gv aud).1
      else if mode = "both" then
        (faceAuth mode profile gf img).1 && (voiceAuth mode profile gv aud).1
      else false
    message :=
      if (if mode = "face" then (faceAuth mode profile gf img).1
          else if mode = "voice" then (voiceAuth mode profile gv aud).1
          else if mode = "both" then
            (faceAuth mode profile gf img).1 && (voiceAuth mode profile gv aud).1
          else false) then
        "Authentication successful for " ++ profile
      else if (faceAuth mode profile gf img).2.2 ++ (voiceAuth mode profile gv aud).2.2 = "" then
        "Authentication failed for " ++ profile
      else (faceAuth mode profile gf img).2.2 ++ (voiceAuth mode profile gv aud).2.2
    face_match := (faceAuth mode profile gf img).2.1
    voice_match := (voiceAuth mode profile gv aud).2.1
    authentication_passed :=
      if mode = "face" then (faceAuth mode profile gf img).1
      else if mode = "voice" then (voiceAuth mode profile gv aud).1
      else if mode = "both" then
        (faceAuth mode profile gf img).1 && (voiceAuth mode profile gv aud).1
      else false }

/- ------------------------------------------------------------------ -/
/- Lip-Sync Analyzer: lip_sync_check (src/app.py lines 378-534).       -/
/- ------------------------------------------------------------------ -/

/-- One entry of the lip_movements series (one per frame with a face). -/
structure LipFrame where
  frame : ℕ
  timestamp : ℝ
  lip_distance : ℝ

/-- The analysis object of the lip-sync success response. -/
structure LipAnalysis where
  duration_analyzed : ℝ
  frames_processed : ℕ
  audio_samples : ℕ
  movement_variance : ℝ
  movement_mean : ℝ
  has_significant_movement : Bool
  has_audio : Bool

/-- Response body of the lip-sync endpoint. The error path (the except
handler) carries no analysis object of this shape, modelled as none. -/
structure LipSyncResponse where
  status_code : ℕ
  success : Bool
  lip_sync_detected : Bool
  confidence : ℝ
  message : String
  analysis : Option LipAnalysis

/-- Arithmetic mean of a list of reals (np.mean). -/
noncomputable def listMean (xs : List ℝ) : ℝ := xs.sum / xs.length

/-- Population variance of a list of reals (np.var, ddof = 0). -/
noncomputable def listVar (xs : List ℝ) : ℝ :=
  ((xs.map fun x => (x - listMean xs) * (x - listMean xs)).sum) / xs.length

/-- Analysis part of lip_sync_check, starting from the extracted
lip_movements series, the frame rate and the audio byte length. Fewer
than 10 entries raises "Insufficient video data for lip sync analysis",
which the handler's own except clause converts into a structured
success=false body with confidence 0.0 (HTTP status 500). Otherwise the
heuristic verdict and confidence are computed from the variance of the
lip_distance values and the audio size. -/
noncomputable def lip_sync_check (fps : ℝ) (movements : List LipFrame) (audioLen : ℕ) :
    LipSyncResponse :=
  if movements.length < 10 then
    { status_code := 500
      success := false
      lip_sync_detected := false
      confidence := 0
      message := "Error during lip sync analysis: Insufficient video data for lip sync analysis"
      analysis := none }
  else
    { status_code := 200
      success := true
      lip_sync_detected :=
        decide (0.001 < listVar (movements.map LipFrame.lip_distance)) &&
          decide (1000 < audioLen)
      confidence :=
        if 0.001 < listVar (movements.map LipFrame.lip_distance) ∧ 1000 < audioLen then
          min 0.95 (0.6 + listVar (movements.map LipFrame.lip_distance) * 1000)
        else
          max 0.1 (listVar (movements.map LipFrame.lip_distance) * 500)
      message :=
        if 0.001 < listVar (movements.map LipFrame.lip_distance) ∧ 1000 < audioLen then
          "Lip sync verified successfully!"
        else
          "Lip sync verification failed - insufficient lip movement detected."
      analysis := some
        { duration_analyzed := (movements.length : ℝ) / fps
          frames_processed := movements.length
          audio_samples := audioLen
          movement_variance := listVar (movements.map LipFrame.lip_distance)
          movement_mean := listMean (movements.map LipFrame.lip_distance)
          has_significant_movement :=
            decide (0.001 < listVar (movements.map LipFrame.lip_distance))
          has_audio := decide (1000 < audioLen) } }

/- ------------------------------------------------------------------ -/
/- Profiles listing: get_available_profiles (src/app.py lines 76-100). -/
/- ------------------------------------------------------------------ -/

/-- Per-mode availability flags of one listed profile. -/
structure ProfileModes where
  face : Bool
  voice : Bool
  both : Bool

/-- One listed profile in the profiles response. -/
structure ProfileInfo where
  name : String
  has_face_model : Bool
  has_voice_model : Bool
  supports_modes : ProfileModes

/-- Response body of the profiles endpoint. -/
structure ProfilesResponse where
  profiles : List ProfileInfo
  total_profiles : ℕ

/-- Dict key membership (profile in data). -/
def hasKey (g : Gallery) (k : String) : Bool := (galleryLookup g k).isSome

/-- get_available_profiles: iterates the fixed name list
["Fenny", "George", "Jovin"], reporting per-modality availability from
dict membership; total_profiles is the length of the built list. -/
def get_available_profiles (face_data voice_data : Gallery) : ProfilesResponse :=
  { profiles :=
      ["Fenny", "George", "Jovin"].map fun profile =>
        { name := profile
          has_face_model := hasKey face_data profile
          has_voice_model := hasKey voice_data profile
          supports_modes :=
            { face := hasKey face_data profile
              voice := hasKey voice_data profile
              both := hasKey face_data profile && hasKey voice_data profile } }
    total_profiles :=
      (["Fenny", "George", "Jovin"].map fun profile =>
        ({ name := profile
           has_face_model := hasKey face_data profile
           has_voice_model := hasKey voice_data profile
           supports_modes :=
             { face := hasKey face_data profile
               voice := hasKey voice_data profile
               both := hasKey face_data profile && hasKey voice_data profile } } :
          ProfileInfo)).length }

/- ------------------------------------------------------------------ -/
/- State-passing view of the handlers.                                 -/
/- ------------------------------------------------------------------ -/

/-- The module-level mutable state of app.py shared between requests: the
dictionaries face_data and voice_data loaded at startup. -/
structure AppState where
  face_data : Gallery
  voice_data : Gallery

/-- match_face as a state transformer: the Python function reads the
face_data dict passed to it and never assigns into it; the returned state
is threaded through every line of the translated body. -/
noncomputable def match_face_st (enc : Vec) (threshold : ℝ) (st : AppState) :
    (Option String × ℝ) × AppState :=
  (match_face enc st.face_data threshold, st)

/-- recognize_voice as a state transformer on the module state. -/
noncomputable def recognize_voice_st (emb : Vec) (st : AppState) :
    VoiceRecoResponse × AppState :=
  (recognize_voice_core emb st.voice_data, st)

/-- Face verification branch as a state transformer on the module state. -/
noncomputable def faceAuth_st (mode profile : String) (img : Option FaceInput) (st : AppState) :
    (Bool × Option MatchRecord × String) × AppState :=
  (faceAuth mode profile st.face_data img, st)

/-- Voice verification branch as a state transformer on the module state. -/
noncomputable def voiceAuth_st (mode profile : String) (aud : Option VoiceInput) (st : AppState) :
    (Bool × Option MatchRecord × String) × AppState :=
  (voiceAuth mode profile st.voice_data aud, st)

/-- combined_authentication as a state transformer on the module state. -/
noncomputable def combined_authentication_st (mode profile : String)
    (img : Option FaceInput) (aud : Option VoiceInput) (st : AppState) :
    AuthResponse × AppState :=
  (combined_authentication mode profile st.face_data st.voice_data img aud, st)

/- ------------------------------------------------------------------ -/
/- Helper lemmas.                                                      -/
/- ------------------------------------------------------------------ -/

/-- The summed squared differences of a vector with itself vanish. -/
theorem sumsq_zip_self (v : Vec) :
    (((v.zip v).map fun p => (p.1 - p.2) * (p.1 - p.2)).sum) = 0 := by
  induction v with
  | nil => simp
  | cons a t ih => simp [List.zip_cons_cons, ih]

/-- L2 distance of a vector to itself is zero. -/
theorem l2dist_self (v : Vec) : l2dist v v = 0 := by
  unfold l2dist
  rw [sumsq_zip_self, Real.sqrt_zero]

/-- The match_face scan of a non-empty gallery returns the entry of minimum
distance, the first-encountered entry winning ties. -/
theorem matchFaceScan_spec (enc : Vec) (g : Gallery) : g ≠ [] →
    ∃ pre e post, g = pre ++ e :: post
      ∧ matchFaceScan enc g = some (e.1, l2dist enc e.2)
      ∧ (∀ p ∈ g, l2dist enc e.2 ≤ l2dist enc p.2)
      ∧ (∀ p ∈ pre, l2dist enc e.2 < l2dist enc p.2) := by
  induction g using List.reverseRecOn with
  | nil => intro h; exact absurd rfl h
  | append_singleton l a ih =>
    intro _
    have hfold : matchFaceScan enc (l ++ [a]) = matchFaceStep enc (matchFaceScan enc l) a := by
      simp [matchFaceScan, List.foldl_append]
    rcases eq_or_ne l [] with rfl | hl
    · refine ⟨[], a, [], by simp, ?_, ?_, ?_⟩
      · simp [matchFaceScan, matchFaceStep]
      · intro p hp
        simp only [List.nil_append, List.mem_singleton] at hp
        subst hp
        exact le_refl _
      · intro p hp
        simp at hp
    · obtain ⟨pre, e, post, hdec, hscan, hmin, hpre⟩ := ih hl
      by_cases hc : l2dist enc a.2 < l2dist enc e.2
      · refine ⟨l, a, [], by simp, ?_, ?_, ?_⟩
        · rw [hfold, hscan]
          simp [matchFaceStep, hc]
        · intro p hp
          rcases List.mem_append.mp hp with hp | hp
          · exact le_of_lt (lt_of_lt_of_le hc (hmin p hp))
          · simp only [List.mem_singleton] at hp
            subst hp
            exact le_refl _
        · intro p hp
          exact lt_of_lt_of_le hc (hmin p hp)
      · refine ⟨pre, e, post ++ [a], by rw [hdec]; simp, ?_, ?_, ?_⟩
        · rw [hfold, hscan]
          simp [matchFaceStep, hc]
        · intro p hp
          rcases List.mem_append.mp hp with hp | hp
          · exact hmin p hp
          · simp only [List.mem_singleton] at hp
            subst hp
            exact le_of_not_lt hc
        · exact hpre

/-- The recognize_voice scan: the tracked highest similarity bounds every
gallery similarity, and either no entry ever beat the initial sentinel -1
or the tracked pair is a gallery entry attaining the tracked similarity. -/
theorem voiceScan_spec (emb : Vec) (g : Gallery) :
    (∀ p ∈ g, cosSim emb p.2 ≤ (voiceScan emb g).2)
    ∧ (voiceScan emb g = (none, -1)
       ∨ ∃ p ∈ g, (voiceScan emb g).1 = some p.1 ∧ (voiceScan emb g).2 = cosSim emb p.2) := by
  induction g using List.reverseRecOn with
  | nil => simp [voiceScan]
  | append_singleton l a ih =>
    obtain ⟨ub, att⟩ := ih
    have hfold : voiceScan emb (l ++ [a]) = voiceScanStep emb (voiceScan emb l) a := by
      simp [voiceScan, List.foldl_append]
    by_cases hc : (voiceScan emb l).2 < cosSim emb a.2
    · have hres : voiceScan emb (l ++ [a]) = (some a.1, cosSim emb a.2) := by
        rw [hfold]
        simp [voiceScanStep, hc]
      constructor
      · intro p hp
        rw [hres]
        rcases List.mem_append.mp hp with hp | hp
        · exact le_of_lt (lt_of_le_of_lt (ub p hp) hc)
        · simp only [List.mem_singleton] at hp
          subst hp
          exact le_refl _
      · right
        exact ⟨a, List.mem_append.mpr (Or.inr (List.mem_singleton.mpr rfl)),
          by rw [hres], by rw [hres]⟩
    · have hres : voiceScan emb (l ++ [a]) = voiceScan emb l := by
        rw [hfold]
        simp [voiceScanStep, hc]
      constructor
      · intro p hp
        rw [hres]
        rcases List.mem_append.mp hp with hp | hp
        · exact ub p hp
        · simp only [List.mem_singleton] at hp
          subst hp
          exact le_of_not_lt hc
      · rcases att with h | ⟨p, hp, h1, h2⟩
        · left
          rw [hres, h]
        · right
          exact ⟨p, List.mem_append.mpr (Or.inl hp), by rw [hres]; exact h1,
            by rw [hres]; exact h2⟩

/-- Face verification succeeded for a request: the image was supplied, a
face was detected (a location found and an encoding extracted), the named
profile has a face template, and the L2 distance of the first encoding to
the template is below 0.6. -/
def FaceVerifySuccess (profile : String) (gf : Gallery) (img : Option FaceInput) : Prop :=
  ∃ fi, img = some fi ∧ fi.locations ≠ [] ∧ fi.encodings ≠ [] ∧
    ∃ known, galleryLookup gf profile = some known ∧ l2dist fi.encodings.headI known < 0.6

/-- Voice verification succeeded for a request: audio was supplied, the
preprocessed waveform has at least 16000 samples, the named profile has a
voice template, and the cosine similarity is at least 0.60. -/
def VoiceVerifySuccess (profile : String) (gv : Gallery) (aud : Option VoiceInput) : Prop :=
  ∃ vi, aud = some vi ∧ 16000 ≤ vi.wavLen ∧
    ∃ stored, galleryLookup gv profile = some stored ∧ 0.60 ≤ cosSim vi.emb stored

/-- The face branch sets face_success exactly when the mode covers face and
face verification succeeded. -/
theorem faceAuth_success_iff (mode profile : String) (gf : Gallery) (img : Option FaceInput) :
    (faceAuth mode profile gf img).1 = true ↔
      ((mode = "face" ∨ mode = "both") ∧ FaceVerifySuccess profile gf img) := by
  unfold faceAuth FaceVerifySuccess
  by_cases hm : mode = "face" ∨ mode = "both"
  · cases img with
    | none => simp [hm]
    | some fi =>
      by_cases hloc : fi.locations = []
      · simp [hm, hloc]
      · by_cases henc : fi.encodings = []
        · simp [hm, hloc, henc]
        · cases hg : galleryLookup gf profile with
          | none => simp [hm, hloc, henc, hg]
          | some known =>
            by_cases hd : l2dist fi.encodings.headI known < 0.6
            · simp [hm, hloc, henc, hg, hd]
            · simp [hm, hloc, henc, hg, hd]
  · simp [hm]

/-- The voice branch sets voice_success exactly when the mode covers voice
and voice verification succeeded. -/
theorem voiceAuth_success_iff (mode profile : String) (gv : Gallery) (aud : Option VoiceInput) :
    (voiceAuth mode profile gv aud).1 = true ↔
      ((mode = "voice" ∨ mode = "both") ∧ VoiceVerifySuccess profile gv aud) := by
  unfold voiceAuth VoiceVerifySuccess
  by_cases hm : mode = "voice" ∨ mode = "both"
  · cases aud with
    | none => simp [hm]
    | some vi =>
      by_cases hw : 16000 ≤ vi.wavLen
      · cases hg : galleryLookup gv profile with
        | none => simp [hm, hw, hg]
        | some stored =>
          by_cases hs : 0.60 ≤ cosSim vi.emb stored
          · simp [hm, hw, hg, hs]
          · simp [hm, hw, hg, hs]
      · simp [hm, hw]
  · simp [hm]

/- ------------------------------------------------------------------ -/
/- Claim theorems.                                                     -/
/- ------------------------------------------------------------------ -/

/-- C1: for a mode-"both" request, authentication_passed (and success) is
true iff face verification succeeded (image supplied, face detected,
profile has a face template, L2 distance < 0.6) and voice verification
succeeded (audio supplied, waveform of at least 16000 samples, profile has
a voice template, cosine similarity ≥ 0.60); an absent modality input
leaves that modality's success flag false, yields no outcome record, and
appends no diagnostic text. -/
theorem both_mode_fusion (profile : String) (gf gv : Gallery)
    (img : Option FaceInput) (aud : Option VoiceInput) :
    ((combined_authentication "both" profile gf gv img aud).authentication_passed = true ↔
      (FaceVerifySuccess profile gf img ∧ VoiceVerifySuccess profile gv aud))
    ∧ (combined_authentication "both" profile gf gv img aud).success
        = (combined_authentication "both" profile gf gv img aud).authentication_passed
    ∧ faceAuth "both" profile gf none = (false, none, "")
    ∧ voiceAuth "both" profile gv none = (false, none, "") := by
  refine ⟨?_, rfl, ?_, ?_⟩
  · have h : (combined_authentication "both" profile gf gv img aud).authentication_passed
        = ((faceAuth "both" profile gf img).1 && (voiceAuth "both" profile gv aud).1) := by
      simp [combined_authentication]
    rw [h, Bool.and_eq_true, faceAuth_success_iff, voiceAuth_success_iff]
    simp
  · simp [faceAuth]
  · simp [voiceAuth]

/-- C2: face verification of a named profile holding a face template:
distance below 0.6 yields the positive record naming the profile with
score max(0, 1 - distance) · 100 and confidence "high" iff the score
exceeds 70 ("medium" otherwise); distance at least 0.6 yields the explicit
"No match" record with the computed score and confidence "low"; identical
vectors (distance 0) yield score 100, confidence high, matched. -/
theorem face_verification_outcomes (mode profile : String) (gf : Gallery) (fi : FaceInput)
    (known : Vec) (hm : mode = "face" ∨ mode = "both") (hloc : fi.locations ≠ [])
    (henc : fi.encodings ≠ []) (hg : galleryLookup gf profile = some known) :
    (l2dist fi.encodings.headI known < 0.6 →
      faceAuth mode profile gf (some fi) =
        (true,
         some { name := profile
                similarity := max 0 (1 - l2dist fi.encodings.headI known) * 100
                confidence := if 70 < max 0 (1 - l2dist fi.encodings.headI known) * 100
                  then "high" else "medium" },
         ""))
    ∧ (0.6 ≤ l2dist fi.encodings.headI known →
      faceAuth mode profile gf (some fi) =
        (false,
         some { name := "No match"
                similarity := max 0 (1 - l2dist fi.encodings.headI known) * 100
                confidence := "low" },
         ""))
    ∧ (fi.encodings.headI = known →
      faceAuth mode profile gf (some fi) =
        (true, some { name := profile, similarity := 100, confidence := "high" }, "")) := by
  refine ⟨?_, ?_, ?_⟩
  · intro hd
    simp [faceAuth, hm, hloc, henc, hg, hd]
  · intro hd
    simp [faceAuth, hm, hloc, henc, hg, not_lt.mpr hd]
  · intro hid
    have h0 : l2dist fi.encodings.headI known = 0 := by
      rw [hid]
      exact l2dist_self known
    have h1 : max (0:ℝ) (1 - 0) * 100 = 100 := by norm_num
    simp [faceAuth, hm, hloc, henc, hg, h0, h1]
    norm_num

/-- C4: match_face selects the minimum-distance entry, the first-encountered
entry in gallery iteration order winning ties; the returned score is
max(0, 1 - minimum distance) · 100; a matched profile is reported iff the
minimum distance is below the threshold, and the score is returned either
way; on an empty gallery it returns (none, 0). -/
theorem match_face_spec (enc : Vec) (g : Gallery) (threshold : ℝ) :
    (g = [] → match_face enc g threshold = (none, 0))
    ∧ (g ≠ [] → ∃ pre e post, g = pre ++ e :: post
        ∧ match_face enc g threshold =
            (if l2dist enc e.2 < threshold then some e.1 else none,
             max 0 (1 - l2dist enc e.2) * 100)
        ∧ (∀ p ∈ g, l2dist enc e.2 ≤ l2dist enc p.2)
        ∧ (∀ p ∈ pre, l2dist enc e.2 < l2dist enc p.2)) := by
  constructor
  · rintro rfl
    rfl
  · intro hne
    obtain ⟨pre, e, post, hdec, hscan, hmin, hpre⟩ := matchFaceScan_spec enc g hne
    exact ⟨pre, e, post, hdec, by simp [match_face, hscan], hmin, hpre⟩

/-- C5: whenever a verification branch runs with a valid sample (image with
a detected face, or audio of at least 16000 samples) and the named profile
has the relevant template, the response carries exactly one outcome record
for that modality, either positive (named after the profile) or the
explicit "No match" record. -/
theorem verification_outcome_materialized (mode profile : String) (gf gv : Gallery)
    (img : Option FaceInput) (aud : Option VoiceInput) :
    (∀ fi known, img = some fi → fi.locations ≠ [] → fi.encodings ≠ [] →
      (mode = "face" ∨ mode = "both") → galleryLookup gf profile = some known →
      ∃ r, (combined_authentication mode profile gf gv img aud).face_match = some r
        ∧ (r.name = profile ∨ r.name = "No match"))
    ∧ (∀ vi stored, aud = some vi → 16000 ≤ vi.wavLen →
      (mode = "voice" ∨ mode = "both") → galleryLookup gv profile = some stored →
      ∃ r, (combined_authentication mode profile gf gv img aud).voice_match = some r
        ∧ (r.name = profile ∨ r.name = "No match")) := by
  constructor
  · rintro fi known rfl hloc henc hm hg
    have hface : (combined_authentication mode profile gf gv (some fi) aud).face_match
        = (faceAuth mode profile gf (some fi)).2.1 := rfl
    rw [hface]
    by_cases hd : l2dist fi.encodings.headI known < 0.6
    · refine ⟨{ name := profile
                similarity := max 0 (1 - l2dist fi.encodings.headI known) * 100
                confidence := if 70 < max 0 (1 - l2dist fi.encodings.headI known) * 100
                  then "high" else "medium" }, ?_, Or.inl rfl⟩
      simp [faceAuth, hm, hloc, henc, hg, hd]
    · refine ⟨{ name := "No match"
                similarity := max 0 (1 - l2dist fi.encodings.headI known) * 100
                confidence := "low" }, ?_, Or.inr rfl⟩
      simp [faceAuth, hm, hloc, henc, hg, hd]
  · rintro vi stored rfl hw hm hg
    have hvoice : (combined_authentication mode profile gf gv img (some vi)).voice_match
        = (voiceAuth mode profile gv (some vi)).2.1 := rfl
    rw [hvoice]
    by_cases hs : 0.60 ≤ cosSim vi.emb stored
    · refine ⟨{ name := profile
                similarity := max 0 (cosSim vi.emb stored * 100)
                confidence := if 75 < max 0 (cosSim vi.emb stored * 100)
                  then "high" else "medium" }, ?_, Or.inl rfl⟩
      simp [voiceAuth, hm, hw, hg, hs]
    · refine ⟨{ name := "No match"
                similarity := max 0 (cosSim vi.emb stored * 100)
                confidence := "low" }, ?_, Or.inr rfl⟩
      simp [voiceAuth, hm, hw, hg, hs]

/-- C6: a lip-sync check whose per-frame series has fewer than 10 entries
fails regardless of audio size or movement, and the failure is returned as
a structured body with success = false, lip_sync_detected = false and
confidence 0.0 (the handler's own except clause builds it, HTTP 500). -/
theorem lip_sync_insufficient_frames (fps : ℝ) (movements : List LipFrame) (audioLen : ℕ)
    (h : movements.length < 10) :
    (lip_sync_check fps movements audioLen).success = false
    ∧ (lip_sync_check fps movements audioLen).lip_sync_detected = false
    ∧ (lip_sync_check fps movements audioLen).confidence = 0
    ∧ (lip_sync_check fps movements audioLen).status_code = 500 := by
  simp [lip_sync_check, h]

/-- C7: with at least 10 frames, lip_sync_detected equals
(variance > 0.001) and (audio bytes > 1000); the confidence is
min(0.95, 0.6 + variance·1000) when detected and max(0.1, variance·500)
otherwise; and the analysis object carries the computed variance, mean,
frame count and both boolean flags. -/
theorem lip_sync_analysis_spec (fps : ℝ) (movements : List LipFrame) (audioLen : ℕ)
    (h : 10 ≤ movements.length) :
    (lip_sync_check fps movements audioLen).lip_sync_detected =
        (decide (0.001 < listVar (movements.map LipFrame.lip_distance)) &&
          decide (1000 < audioLen))
    ∧ ((lip_sync_check fps movements audioLen).lip_sync_detected = true →
        (lip_sync_check fps movements audioLen).confidence =
          min 0.95 (0.6 + listVar (movements.map LipFrame.lip_distance) * 1000))
    ∧ ((lip_sync_check fps movements audioLen).lip_sync_detected = false →
        (lip_sync_check fps movements audioLen).confidence =
          max 0.1 (listVar (movements.map LipFrame.lip_distance) * 500))
    ∧ (lip_sync_check fps movements audioLen).analysis = some
        { duration_analyzed := (movements.length : ℝ) / fps
          frames_processed := movements.length
          audio_samples := audioLen
          movement_variance := listVar (movements.map LipFrame.lip_distance)
          movement_mean := listMean (movements.map LipFrame.lip_distance)
          has_significant_movement :=
            decide (0.001 < listVar (movements.map LipFrame.lip_distance))
          has_audio := decide (1000 < audioLen) }
    ∧ (lip_sync_check fps movements audioLen).success = true := by
  have hn : ¬ movements.length < 10 := not_lt.mpr h
  refine ⟨?_, ?_, ?_, ?_, ?_⟩
  · simp [lip_sync_check, hn]
  · intro hd
    simp only [lip_sync_check, if_neg hn] at hd ⊢
    simp only [Bool.and_eq_true, decide_eq_true_eq] at hd
    rw [if_pos hd]
  · intro hd
    simp only [lip_sync_check, if_neg hn] at hd ⊢
    have hcond : ¬ (0.001 < listVar (movements.map LipFrame.lip_distance) ∧ 1000 < audioLen) := by
      intro hc
      simp [hc.1, hc.2] at hd
    rw [if_neg hcond]
  · simp [lip_sync_check, hn]
  · simp [lip_sync_check, hn]

/-- C8: no matching operation writes the module state: face identification,
voice identification and the combined face/voice verification branches all
return the face_data and voice_data dictionaries exactly as given. -/
theorem matching_preserves_gallery (enc emb : Vec) (threshold : ℝ) (mode profile : String)
    (img : Option FaceInput) (aud : Option VoiceInput) (st : AppState) :
    (match_face_st enc threshold st).2 = st
    ∧ (recognize_voice_st emb st).2 = st
    ∧ (faceAuth_st mode profile img st).2 = st
    ∧ (voiceAuth_st mode profile aud st).2 = st
    ∧ (combined_authentication_st mode profile img aud st).2 = st :=
  ⟨rfl, rfl, rfl, rfl, rfl⟩

/-- C9: the profiles listing always returns exactly the three fixed names
"Fenny", "George", "Jovin" in that order with per-modality availability
flags from dict membership, and total_profiles = 3; no other enrolled name
is ever listed, and the three names are listed even when absent from both
galleries. -/
theorem profiles_listing_spec (fd vd : Gallery) :
    (get_available_profiles fd vd).profiles.map ProfileInfo.name = ["Fenny", "George", "Jovin"]
    ∧ (get_available_profiles fd vd).total_profiles = 3
    ∧ (∀ p ∈ (get_available_profiles fd vd).profiles,
        p.has_face_model = hasKey fd p.name
        ∧ p.has_voice_model = hasKey vd p.name
        ∧ p.supports_modes.face = p.has_face_model
        ∧ p.supports_modes.voice = p.has_voice_model
        ∧ p.supports_modes.both = (p.has_face_model && p.has_voice_model))
    ∧ (∀ n, n ∉ (["Fenny", "George", "Jovin"] : List String) →
        ∀ p ∈ (get_available_profiles fd vd).profiles, p.name ≠ n) := by
  refine ⟨rfl, rfl, ?_, ?_⟩
  · intro p hp
    simp only [get_available_profiles, List.map_cons, List.map_nil, List.mem_cons,
      List.not_mem_nil, or_false] at hp
    rcases hp with rfl | rfl | rfl <;> exact ⟨rfl, rfl, rfl, rfl, rfl⟩
  · intro n hn p hp
    simp only [List.mem_cons, List.not_mem_nil, or_false, not_or] at hn
    simp only [get_available_profiles, List.map_cons, List.map_nil, List.mem_cons,
      List.not_mem_nil, or_false] at hp
    rcases hp with rfl | rfl | rfl <;> simp_all [Ne, eq_comm]

/-- C10: in face verification only the first encoding of the extractor's
returned sequence is compared against the named profile's template; the
remaining encodings have no effect on the response. -/
theorem face_first_encoding_only (mode profile : String) (gf gv : Gallery)
    (aud : Option VoiceInput) (locs : List FaceLocation) (e : Vec) (rest1 rest2 : List Vec) :
    combined_authentication mode profile gf gv
        (some { locations := locs, encodings := e :: rest1 }) aud
      = combined_authentication mode profile gf gv
        (some { locations := locs, encodings := e :: rest2 }) aud := by
  have hface : faceAuth mode profile gf (some { locations := locs, encodings := e :: rest1 })
      = faceAuth mode profile gf (some { locations := locs, encodings := e :: rest2 }) := by
    simp [faceAuth]
  simp only [combined_authentication, hface]

/-- Statement of the C3 claim on voice identification exactly as written:
over any non-empty gallery the best (highest-cosine-similarity) score
max(0, similarity · 100) is reported as best_similarity, and a match entry
is emitted iff the best similarity is at least 0.60. -/
def VoiceIdentClaim : Prop :=
  ∀ (g : Gallery) (emb : Vec), g ≠ [] →
    (recognize_voice_core emb g).best_similarity
        = max 0 (((g.map fun p => cosSim emb p.2).foldl max (-1)) * 100)
    ∧ ((recognize_voice_core emb g).«matches» ≠ []
        ↔ 0.60 ≤ (g.map fun p => cosSim emb p.2).foldl max (-1))

/-- C3 counterexample: with the single-entry gallery mapping the empty
string to [1] and input embedding [1], the best cosine similarity is
1 ≥ 0.60, yet the code emits no match and reports best_similarity 0,
because the guard "if best_match and ..." treats the empty-string name as
falsy. -/
theorem voice_ident_claim_refuted : ¬ VoiceIdentClaim := by
  intro h
  have hc : cosSim [(1:ℝ)] [(1:ℝ)] = 1 := by
    simp [cosSim, dot, norm2]
  have hfold : ([("", [(1:ℝ)])].map fun p => cosSim [(1:ℝ)] p.2).foldl max (-1) = 1 := by
    simp only [List.map_cons, List.map_nil, List.foldl_cons, List.foldl_nil, hc]
    exact max_eq_right (by norm_num)
  have hscan : voiceScan [(1:ℝ)] [("", [(1:ℝ)])] = (some "", 1) := by
    simp only [voiceScan, List.foldl_cons, List.foldl_nil, voiceScanStep, hc]
    rw [if_pos (by norm_num)]
  obtain ⟨h1, h2⟩ := h [("", [(1:ℝ)])] [(1:ℝ)] (by simp)
  rw [hfold] at h2
  have hm : (recognize_voice_core [(1:ℝ)] [("", [(1:ℝ)])]).«matches» = [] := by
    simp [recognize_voice_core, hscan, pyTruthy]
  exact (hm ▸ h2.mpr (by norm_num)) rfl

/-- C3 amended: over any non-empty gallery the scan tracks a similarity
that bounds every gallery similarity and is attained by some entry (unless
no entry beats the initial sentinel -1); when the tracked best name is
truthy (non-empty string), best_similarity = max(0, similarity · 100) and
a match entry is emitted exactly when the similarity is at least 0.60,
with confidence "high" iff the score exceeds 75 and "medium" otherwise;
below 0.60 the match list is empty; with a falsy best name the match list
is empty and best_similarity is reported as 0 even above threshold. -/
theorem voice_identification_amended (g : Gallery) (emb : Vec) (_hne : g ≠ []) :
    (∀ p ∈ g, cosSim emb p.2 ≤ (voiceScan emb g).2)
    ∧ (voiceScan emb g = (none, -1)
       ∨ ∃ p ∈ g, (voiceScan emb g).1 = some p.1 ∧ (voiceScan emb g).2 = cosSim emb p.2)
    ∧ (pyTruthy (voiceScan emb g).1 = true →
        (recognize_voice_core emb g).best_similarity = max 0 ((voiceScan emb g).2 * 100))
    ∧ (pyTruthy (voiceScan emb g).1 = true → 0.60 ≤ (voiceScan emb g).2 →
        (recognize_voice_core emb g).«matches» =
          [{ name := ((voiceScan emb g).1).getD ""
             similarity := max 0 ((voiceScan emb g).2 * 100)
             confidence := if 75 < max 0 ((voiceScan emb g).2 * 100) then "high" else "medium" }])
    ∧ ((voiceScan emb g).2 < 0.60 → (recognize_voice_core emb g).«matches» = [])
    ∧ (pyTruthy (voiceScan emb g).1 = false →
        (recognize_voice_core emb g).«matches» = []
        ∧ (recognize_voice_core emb g).best_similarity = 0) := by
  obtain ⟨ub, att⟩ := voiceScan_spec emb g
  refine ⟨ub, att, ?_, ?_, ?_, ?_⟩
  · intro ht
    simp [recognize_voice_core, ht]
  · intro ht hs
    simp [recognize_voice_core, ht, hs]
  · intro hs
    simp [recognize_voice_core, not_le.mpr hs]
  · intro hf
    exact ⟨by simp [recognize_voice_core, hf], by simp [recognize_voice_core, hf]⟩

/- ------------------------------------------------------------------ -/
/- Concrete witnesses.                                                 -/
/- ------------------------------------------------------------------ -/

/-- Witness for C2 at a concrete request: profile "A" with template [0],
one detected face with encoding [0]; identical vectors give the positive
record with score 100 and confidence high. -/
theorem face_verification_outcomes_witness :
    (("face" : String) = "face" ∨ ("face" : String) = "both")
    ∧ (({ locations := [(0, 0, 0, 0)], encodings := [[(0:ℝ)]] } : FaceInput).locations ≠ [])
    ∧ (({ locations := [(0, 0, 0, 0)], encodings := [[(0:ℝ)]] } : FaceInput).encodings ≠ [])
    ∧ galleryLookup [("A", [(0:ℝ)])] "A" = some [(0:ℝ)]
    ∧ (({ locations := [(0, 0, 0, 0)], encodings := [[(0:ℝ)]] } : FaceInput).encodings.headI
          = [(0:ℝ)] →
        faceAuth "face" "A" [("A", [(0:ℝ)])]
            (some { locations := [(0, 0, 0, 0)], encodings := [[(0:ℝ)]] }) =
          (true, some { name := "A", similarity := 100, confidence := "high" }, "")) :=
  ⟨Or.inl rfl, by simp, by simp, by simp [galleryLookup],
   (face_verification_outcomes "face" "A" [("A", [(0:ℝ)])]
      { locations := [(0, 0, 0, 0)], encodings := [[(0:ℝ)]] } [(0:ℝ)]
      (Or.inl rfl) (by simp) (by simp) (by simp [galleryLookup])).2.2⟩

/-- Witness for the amended C3 at a concrete request: the one-entry gallery
mapping "A" to [1] is non-empty, and with a truthy best name the reported
best_similarity is the best score. -/
theorem voice_identification_amended_witness :
    ([("A", [(1:ℝ)])] : Gallery) ≠ []
    ∧ (pyTruthy (voiceScan [(1:ℝ)] [("A", [(1:ℝ)])]).1 = true →
        (recognize_voice_core [(1:ℝ)] [("A", [(1:ℝ)])]).best_similarity
          = max 0 ((voiceScan [(1:ℝ)] [("A", [(1:ℝ)])]).2 * 100)) :=
  ⟨by simp, (voice_identification_amended [("A", [(1:ℝ)])] [(1:ℝ)] (by simp)).2.2.1⟩

/-- Witness for C4 at a concrete gallery of one entry at distance 0. -/
theorem match_face_spec_witness :
    ∃ pre e post, ([("A", [(0:ℝ)])] : Gallery) = pre ++ e :: post
      ∧ match_face [(0:ℝ)] [("A", [(0:ℝ)])] 0.6 =
          (if l2dist [(0:ℝ)] e.2 < 0.6 then some e.1 else none,
           max 0 (1 - l2dist [(0:ℝ)] e.2) * 100)
      ∧ (∀ p ∈ ([("A", [(0:ℝ)])] : Gallery), l2dist [(0:ℝ)] e.2 ≤ l2dist [(0:ℝ)] p.2)
      ∧ (∀ p ∈ pre, l2dist [(0:ℝ)] e.2 < l2dist [(0:ℝ)] p.2) :=
  (match_face_spec [(0:ℝ)] [("A", [(0:ℝ)])] 0.6).2 (by simp)

/-- Witness for C5 at a concrete face-mode request with a present template
and a detected face: the face_match record is materialized. -/
theorem verification_outcome_materialized_witness :
    ∃ r, (combined_authentication "face" "A" [("A", [(0:ℝ)])] []
        (some { locations := [(0, 0, 0, 0)], encodings := [[(0:ℝ)]] }) none).face_match = some r
      ∧ (r.name = "A" ∨ r.name = "No match") :=
  (verification_outcome_materialized "face" "A" [("A", [(0:ℝ)])] []
      (some { locations := [(0, 0, 0, 0)], encodings := [[(0:ℝ)]] }) none).1
    { locations := [(0, 0, 0, 0)], encodings := [[(0:ℝ)]] } [(0:ℝ)]
    rfl (by simp) (by simp) (Or.inl rfl) (by simp [galleryLookup])

/-- Witness for C6 at an empty series and a large audio blob. -/
theorem lip_sync_insufficient_frames_witness :
    ([] : List LipFrame).length < 10
    ∧ ((lip_sync_check 30 [] 5000).success = false
       ∧ (lip_sync_check 30 [] 5000).lip_sync_detected = false
       ∧ (lip_sync_check 30 [] 5000).confidence = 0
       ∧ (lip_sync_check 30 [] 5000).status_code = 500) :=
  ⟨by simp, lip_sync_insufficient_frames 30 [] 5000 (by simp)⟩

/-- Witness for C7 at a concrete 10-frame series. -/
theorem lip_sync_analysis_spec_witness :
    10 ≤ (List.replicate 10
        ({ frame := 0, timestamp := 0, lip_distance := 0 } : LipFrame)).length
    ∧ (lip_sync_check 30
        (List.replicate 10 ({ frame := 0, timestamp := 0, lip_distance := 0 } : LipFrame))
        2000).success = true :=
  ⟨by simp,
   (lip_sync_analysis_spec 30
      (List.replicate 10 ({ frame := 0, timestamp := 0, lip_distance := 0 } : LipFrame))
      2000 (by simp)).2.2.2.2⟩

/-- Witness for C9 at a concrete pair of galleries: only the fixed names
are listed, in order, with total_profiles 3. -/
theorem profiles_listing_spec_witness :
    (get_available_profiles [("George", [])] []).profiles.map ProfileInfo.name
      = ["Fenny", "George", "Jovin"]
    ∧ (get_available_profiles [("George", [])] []).total_profiles = 3 :=
  ⟨(profiles_listing_spec [("George", [])] []).1,
   (profiles_listing_spec [("George", [])] []).2.1⟩

end BiometricAuth
